import Mathlib

/-!
Shallow embedding of the morphine analytics platform (fullscreen-triangle/morphine)
and verification of the frozen specification claims.

The Python sources are translated definition-by-definition:
machine floats become `ℚ` where the code only does field arithmetic and
`ℝ` where square roots / trigonometry appear; external library calls
(OpenCV colour conversion, contour extraction, sparse optical flow) are
passed in as explicit oracle parameters, since they are outside the
repository; everything the repository itself computes is embedded.
-/

namespace Morphine

/-- Last `n` elements of a list (Python `l[-n:]`, also the behaviour of a
`deque` with `maxlen = n` after an append). -/
def lastN (n : ℕ) (l : List α) : List α := l.drop (l.length - n)

/-- Arithmetic mean of a list of rationals (`np.mean`). -/
def qMean (l : List ℚ) : ℚ := l.sum / l.length

/-- Arithmetic mean of a list of reals (`np.mean`). -/
noncomputable def rMean (l : List ℝ) : ℝ := l.sum / l.length

theorem lastN_length (n : ℕ) (l : List α) : (lastN n l).length = min n l.length := by
  simp [lastN]
  omega

/-! ## C1 — `OpticalAnalyzer.analyze_motion_energy`
(src/analytics/frameworks/vibrio.py, lines 308–332)

A grayscale frame is a list of pixel intensities (naturals in 0..255).
`cv2.absdiff` is elementwise absolute difference, `cv2.threshold(diff, 25,
255, THRESH_BINARY)` maps a pixel to 255 when it is strictly greater than
25 and to 0 otherwise.  `cv2.findContours` is an external library call and
is modelled as an oracle returning the list of contour areas of the mask. -/

/-- A grayscale frame: one intensity per pixel. -/
abbrev Gray := List ℕ

/-- `cv2.absdiff` of two equally sized grayscale frames. -/
def absdiff (a b : Gray) : List ℕ := List.zipWith (fun x y => max x y - min x y) a b

/-- `cv2.threshold(diff, 25, 255, cv2.THRESH_BINARY)`: 255 where the value
strictly exceeds the threshold, 0 elsewhere. -/
def thresholdBinary (thresh maxval : ℕ) (l : List ℕ) : List ℕ :=
  l.map (fun d => if thresh < d then maxval else 0)

/-- Mutable state of `OpticalAnalyzer` relevant to motion energy:
`self.motion_history`, a deque of grayscale frames with `maxlen = 10`. -/
structure MotionState where
  motion_history : List Gray

/-- Result dictionary of `analyze_motion_energy`. -/
structure MotionEnergyResult where
  motion_energy : ℚ
  active_regions : ℕ

/-- `OpticalAnalyzer.analyze_motion_energy`, translated from
src/analytics/frameworks/vibrio.py lines 308–332.  `contourAreas` is the
oracle for `cv2.findContours` + `cv2.contourArea`: the list of external
contour areas of the binary mask. -/
def analyze_motion_energy (contourAreas : List ℕ → List ℚ)
    (st : MotionState) (gray : Gray) : MotionState × MotionEnergyResult :=
  let history := lastN 10 (st.motion_history ++ [gray])
  if history.length < 2 then
    (⟨history⟩, ⟨0, 0⟩)
  else
    let diff := absdiff (history.getD (history.length - 2) [])
      (history.getD (history.length - 1) [])
    let motion_mask := thresholdBinary 25 255 diff
    let motion_energy : ℚ := (motion_mask.sum : ℚ) / (motion_mask.length : ℚ)
    let active_regions := ((contourAreas motion_mask).filter (fun a => 100 < a)).length
    (⟨history⟩, ⟨motion_energy, active_regions⟩)

/-- The two most recent frames of the (updated) motion history: the operands
of the frame difference inside `analyze_motion_energy`. -/
def meFrames (st : MotionState) (gray : Gray) : Gray × Gray :=
  let history := lastN 10 (st.motion_history ++ [gray])
  (history.getD (history.length - 2) [], history.getD (history.length - 1) [])

/-- The number of moving pixels: pixels of the frame difference strictly
above the threshold 25. -/
def movingPixels (a b : Gray) : ℕ := ((absdiff a b).filter (fun d => 25 < d)).length

theorem thresholdBinary_sum (l : List ℕ) :
    (thresholdBinary 25 255 l).sum = 255 * (l.filter (fun d => 25 < d)).length := by
  induction l with
  | nil => simp [thresholdBinary]
  | cons x xs ih =>
    by_cases h : 25 < x <;>
      simp [thresholdBinary, List.filter, h] <;>
      simp [thresholdBinary] at ih <;> omega

theorem thresholdBinary_length (t m : ℕ) (l : List ℕ) :
    (thresholdBinary t m l).length = l.length := by
  simp [thresholdBinary]

/-- C1, counterexample.  After a first frame `[0]`, analysing the one-pixel
frame `[100]` (difference 100 > 25, so the single pixel is moving) reports
`motion_energy = 255`, while `moving_pixels / total_pixels = 1/1 = 1`; the
reported value is neither that fraction nor inside `[0, 1]`. -/
theorem c1_motion_energy_not_fraction :
    (analyze_motion_energy (fun _ => []) ⟨[[0]]⟩ [100]).2.motion_energy = 255 ∧
    ((movingPixels [0] [100] : ℚ) / ((absdiff [0] [100]).length : ℚ) = 1) ∧
    (255 : ℚ) ≠ 1 ∧ ¬ (255 : ℚ) ≤ 1 := by
  refine ⟨?_, ?_, by norm_num, by norm_num⟩
  · simp [analyze_motion_energy, lastN, absdiff, thresholdBinary]
  · simp [movingPixels, absdiff]

/-- C1, amended.  For every analysed frame after the first, the reported
`motion_energy` equals `255 · moving_pixels / total_pixels` (the binary mask
stores 255 per moving pixel and the sum is divided by the pixel count), and
therefore lies in `[0, 255]`; `active_regions` equals the count of contours
of the mask with area strictly greater than 100 px. -/
theorem c1_motion_energy_scaled (contourAreas : List ℕ → List ℚ)
    (st : MotionState) (gray : Gray) (h : st.motion_history ≠ []) :
    (analyze_motion_energy contourAreas st gray).2.motion_energy =
      255 * (movingPixels (meFrames st gray).1 (meFrames st gray).2 : ℚ) /
        ((absdiff (meFrames st gray).1 (meFrames st gray).2).length : ℚ) ∧
    0 ≤ (analyze_motion_energy contourAreas st gray).2.motion_energy ∧
    (analyze_motion_energy contourAreas st gray).2.motion_energy ≤ 255 ∧
    (analyze_motion_energy contourAreas st gray).2.active_regions =
      ((contourAreas (thresholdBinary 25 255
          (absdiff (meFrames st gray).1 (meFrames st gray).2))).filter
        (fun a => 100 < a)).length := by
  have hlen : ¬ (lastN 10 (st.motion_history ++ [gray])).length < 2 := by
    rw [lastN_length]
    have : 1 ≤ st.motion_history.length := List.length_pos.mpr h
    simp only [List.length_append, List.length_singleton]
    omega
  refine ⟨?_, ?_, ?_, ?_⟩
  · simp only [analyze_motion_energy, meFrames, hlen, if_false,
      thresholdBinary_sum, thresholdBinary_length, movingPixels]
    push_cast
    ring
  · simp only [analyze_motion_energy, hlen, if_false]
    positivity
  · simp only [analyze_motion_energy, hlen, if_false,
      thresholdBinary_sum, thresholdBinary_length]
    generalize absdiff _ _ = d
    have hfil : (d.filter (fun x => 25 < x)).length ≤ d.length :=
      List.length_filter_le _ _
    rcases Nat.eq_zero_or_pos d.length with hz | hp
    · rw [List.length_eq_zero.mp hz]
      norm_num
    · rw [div_le_iff₀ (by exact_mod_cast hp)]
      push_cast
      have : ((d.filter (fun x => 25 < x)).length : ℚ) ≤ (d.length : ℚ) := by
        exact_mod_cast hfil
      nlinarith
  · simp only [analyze_motion_energy, meFrames, hlen, if_false]

/-- C1, witness for the amended theorem at a concrete two-frame history. -/
theorem c1_motion_energy_scaled_witness :
    ([[0]] : List Gray) ≠ [] ∧
    (analyze_motion_energy (fun _ => [50, 200]) ⟨[[0]]⟩ [100]).2.active_regions = 1 ∧
    (analyze_motion_energy (fun _ => [50, 200]) ⟨[[0]]⟩ [100]).2.motion_energy ≤ 255 := by
  have h := c1_motion_energy_scaled (fun _ => [50, 200]) ⟨[[0]]⟩ [100] (by decide)
  refine ⟨by decide, ?_, h.2.2.1⟩
  rw [h.2.2.2]
  decide

/-! ## C2 — `RedisService.cleanup_stream`
(src/analytics/services/redis_service.py, lines 178–197)

The Redis store is modelled as a partial map from keys to values.  The key
patterns are the ones assembled in `RedisService.__init__` (lines 24–29).
The cited `cleanup_stream` builds the list of all six per-stream keys and
deletes every one of them — including the stream summary. -/

/-- Key pattern `morphine:analytics:{stream_id}` (the analytics history). -/
def analyticsKey (id : String) : String := "morphine:analytics:" ++ id

/-- Key pattern `morphine:stream:{stream_id}:state` (state and settings). -/
def streamStateKey (id : String) : String := "morphine:stream:" ++ id ++ ":state"

/-- Key pattern `morphine:stream:{stream_id}:summary`. -/
def streamSummaryKey (id : String) : String := "morphine:stream:" ++ id ++ ":summary"

/-- Key pattern `morphine:analytics:{stream_id}:latest` (latest pointer). -/
def latestAnalyticsKey (id : String) : String := "morphine:analytics:" ++ id ++ ":latest"

/-- Key pattern `morphine:betting:{stream_id}`. -/
def bettingKey (id : String) : String := "morphine:betting:" ++ id

/-- Key pattern `morphine:alerts:{stream_id}`. -/
def alertsKey (id : String) : String := "morphine:alerts:" ++ id

/-- The list `keys_to_delete` assembled by `cleanup_stream` (lines 182–189). -/
def cleanupKeys (id : String) : List String :=
  [analyticsKey id, streamStateKey id, streamSummaryKey id,
   latestAnalyticsKey id, bettingKey id, alertsKey id]

/-- `RedisService.cleanup_stream` (lines 178–197): `redis.delete(*keys)` on
the six per-stream keys, leaving every other key unchanged. -/
def cleanup_stream (st : String → Option V) (id : String) : String → Option V :=
  fun k => if k ∈ cleanupKeys id then none else st k

/-- C2, counterexample.  A store holding the summary of stream `s1` no
longer holds it after `cleanup_stream s1`: the cited cleanup deletes the
summary instead of preserving it with `status = inactive`. -/
theorem c2_cleanup_deletes_summary :
    (fun k => if k = streamSummaryKey "s1" then some "summary-data" else none :
        String → Option String) (streamSummaryKey "s1") = some "summary-data" ∧
    cleanup_stream
      (fun k => if k = streamSummaryKey "s1" then some "summary-data" else none)
      "s1" (streamSummaryKey "s1") = none := by
  constructor
  · simp
  · simp [cleanup_stream, cleanupKeys]

/-- C2, amended.  `cleanup_stream(stream_id)` deletes the stream's history,
latest pointer, state/settings, betting opportunities, alerts — and also its
summary (nothing is preserved); every key outside those six is untouched. -/
theorem c2_cleanup_effect (st : String → Option V) (id : String) :
    cleanup_stream st id (analyticsKey id) = none ∧
    cleanup_stream st id (streamStateKey id) = none ∧
    cleanup_stream st id (streamSummaryKey id) = none ∧
    cleanup_stream st id (latestAnalyticsKey id) = none ∧
    cleanup_stream st id (bettingKey id) = none ∧
    cleanup_stream st id (alertsKey id) = none ∧
    ∀ k, k ∉ cleanupKeys id → cleanup_stream st id k = st k := by
  refine ⟨?_, ?_, ?_, ?_, ?_, ?_, ?_⟩ <;>
    simp [cleanup_stream, cleanupKeys]
  intro k h1 h2 h3 h4 h5 h6
  simp [h1, h2, h3, h4, h5, h6]

/-- C2, witness for the amended theorem on a concrete one-key store. -/
theorem c2_cleanup_effect_witness :
    cleanup_stream (fun _ => some "v" : String → Option String) "s1"
        (streamSummaryKey "s1") = none ∧
    "unrelated" ∉ cleanupKeys "s1" ∧
    cleanup_stream (fun _ => some "v" : String → Option String) "s1"
        "unrelated" = some "v" := by
  have h := c2_cleanup_effect (fun _ => some "v" : String → Option String) "s1"
  exact ⟨h.2.2.1, by decide, h.2.2.2.2.2.2 "unrelated" (by decide)⟩

/-! ## C4 — `RedisService.update_stream_summary`
(src/analytics/services/redis_service.py, lines 199–259)

The summary-update logic is pure state transformation once the Redis
round-trips are inlined; it is embedded as a function from the current
summary and the incoming analytics record to the stored summary. -/

/-- A track as it appears inside a stored vibrio result (only the field the
summary update reads). -/
structure VibrioTrackRec where
  speed : ℚ

/-- The vibrio branch of an analytics record, as read by the summary update. -/
structure VibrioRec where
  total_detections : ℕ
  tracks : List VibrioTrackRec

/-- The moriarty branch of an analytics record, as read by the summary update. -/
structure MoriartyRec where
  pose_detected : Bool

/-- An analytics record, restricted to the fields `update_stream_summary`
reads. -/
structure AnalyticsRec where
  vibrio : Option VibrioRec
  moriarty : Option MoriartyRec
  processing_time : ℚ

/-- The per-stream summary (`StreamAnalytics`) fields mutated by
`update_stream_summary`. -/
structure StreamSummary where
  total_frames : ℕ
  total_detections : ℕ
  average_speed : ℚ
  max_speed : ℚ
  pose_detection_rate : ℚ
  average_processing_time : ℚ

/-- The zero-initialised summary produced by `initialize_stream`
(lines 153–163). -/
def StreamSummary.fresh : StreamSummary := ⟨0, 0, 0, 0, 0, 0⟩

/-- Maximum of a nonempty list of rationals (`max(speeds)`), 0 on []. -/
def qMax : List ℚ → ℚ
  | [] => 0
  | x :: xs => xs.foldl max x

/-- `RedisService.update_stream_summary`, translated from lines 199–259 of
src/analytics/services/redis_service.py (the body after the summary has been
fetched; the store write is the returned value). -/
def update_stream_summary (s₀ : StreamSummary) (a : AnalyticsRec) : StreamSummary :=
  let s := { s₀ with total_frames := s₀.total_frames + 1 }
  let s : StreamSummary :=
    match a.vibrio with
    | none => s
    | some v =>
      let s := { s with total_detections := s.total_detections + v.total_detections }
      let speeds := (v.tracks.map VibrioTrackRec.speed).filter (fun x => 0 < x)
      (match speeds with
      | [] => s
      | _ :: _ =>
        let mx := qMax speeds
        let avg := qMean speeds
        let s : StreamSummary := { s with max_speed := max s.max_speed mx }
        if 1 < s.total_frames then
          { s with average_speed :=
              (s.average_speed * ((s.total_frames : ℚ) - 1) + avg) / (s.total_frames : ℚ) }
        else
          { s with average_speed := avg } : StreamSummary)
  let s : StreamSummary :=
    if (a.moriarty.map MoriartyRec.pose_detected).getD false then
      let pose_frames := (s.total_frames : ℚ) * s.pose_detection_rate + 1
      { s with pose_detection_rate := pose_frames / (s.total_frames : ℚ) }
    else s
  if 1 < s.total_frames then
    { s with average_processing_time :=
        (s.average_processing_time * ((s.total_frames : ℚ) - 1) + a.processing_time) /
          (s.total_frames : ℚ) }
  else
    { s with average_processing_time := a.processing_time }

/-- The pose-detection-rate update demanded by the claim (and by §9(b) of
the spec): `new_rate = (old_rate · (N−1) + indicator) / N` where `N` is the
already-incremented frame count.  Second definition written from the spec's
words, for comparison with the code's behaviour. -/
def specPoseRateUpdate (old_rate : ℚ) (N : ℕ) (indicator : ℚ) : ℚ :=
  (old_rate * ((N : ℚ) - 1) + indicator) / (N : ℚ)

/-- A record with a detected pose and nothing else. -/
def poseOnlyRec : AnalyticsRec := ⟨none, some ⟨true⟩, 0⟩

/-- C4: the code divides the already-incremented product by the incremented
count.  Storing two pose-detected records from a fresh summary: after the
first the rate is 1; after the second the code computes `(2·1+1)/2 = 3/2`,
while the claimed correct update gives `(1·(2−1)+1)/2 = 1`.  The code's rate
exceeds 1, impossible for a detection rate. -/
theorem c4_pose_rate_double_count :
    (update_stream_summary StreamSummary.fresh poseOnlyRec).pose_detection_rate = 1 ∧
    (update_stream_summary StreamSummary.fresh poseOnlyRec).total_frames = 1 ∧
    (update_stream_summary (update_stream_summary StreamSummary.fresh poseOnlyRec)
        poseOnlyRec).pose_detection_rate = 3 / 2 ∧
    specPoseRateUpdate 1 2 1 = 1 ∧
    ((3 : ℚ) / 2 ≠ 1 ∧ 1 < (3 : ℚ) / 2) := by
  have h1 : (update_stream_summary StreamSummary.fresh poseOnlyRec).pose_detection_rate = 1 := by
    simp [update_stream_summary, StreamSummary.fresh, poseOnlyRec]
  have h2 : (update_stream_summary StreamSummary.fresh poseOnlyRec).total_frames = 1 := by
    simp [update_stream_summary, StreamSummary.fresh, poseOnlyRec]
  refine ⟨h1, h2, ?_, ?_, by norm_num, by norm_num⟩
  · norm_num [update_stream_summary, poseOnlyRec, StreamSummary.fresh]
  · norm_num [specPoseRateUpdate]

/-! ## C5 — `VideoIngestionPipeline.start_stream`
(src/analytics/src/video/ingestion.py, lines 44–74) and the
`/analytics/start_stream` endpoint (src/analytics/main.py, lines 214–255).

The pipeline state is its set of active stream ids.  `StreamHandler.start`
(opening the capture device) is the external effect; it is modelled by a
boolean oracle `openOk`, and the returned counter records how many times it
was invoked. -/

/-- `VideoIngestionPipeline`: the active-stream registry. -/
structure Pipeline where
  active_streams : List String

/-- `VideoIngestionPipeline.start_stream` (lines 44–74): returns the success
flag, the new pipeline state and the number of `handler.start()` source-open
attempts made.  An id already in `active_streams` short-circuits to `False`
without constructing or starting a handler. -/
def start_stream (p : Pipeline) (id : String) (openOk : Bool) : Bool × Pipeline × ℕ :=
  if id ∈ p.active_streams then
    (false, p, 0)
  else if openOk then
    (true, ⟨p.active_streams ++ [id]⟩, 1)
  else
    (false, p, 1)

/-- The `/analytics/start_stream` endpoint (main.py lines 214–255): on
pipeline success it returns HTTP 200 with `success = true`; on pipeline
failure it raises, which the handler turns into HTTP 500. -/
def start_stream_analytics (p : Pipeline) (id : String) (openOk : Bool) :
    (ℕ × Bool) × Pipeline :=
  let r := start_stream p id openOk
  if r.1 then ((200, true), r.2.1) else ((500, false), r.2.1)

/-- C5, counterexample.  `start(S); start(S)` with a healthy source: the
first call succeeds, but the second returns `False` from the pipeline and
HTTP 500 from the endpoint — not success — although exactly one active
stream remains and the source is not re-opened. -/
theorem c5_second_start_fails :
    (start_stream ⟨[]⟩ "S" true).1 = true ∧
    (start_stream (start_stream ⟨[]⟩ "S" true).2.1 "S" true).1 = false ∧
    (start_stream_analytics (start_stream ⟨[]⟩ "S" true).2.1 "S" true).1.1 = 500 := by
  refine ⟨?_, ?_, ?_⟩ <;> decide

/-- C5, amended.  `start(S); start(S)` leaves exactly one active entry for
`S`; the second start makes no attempt to re-open the source, but it
reports failure (`False` from the pipeline, HTTP 500 from the endpoint),
not success. -/
theorem c5_start_not_idempotent (p : Pipeline) (id : String) (ok₂ : Bool)
    (h : id ∉ p.active_streams) :
    (start_stream p id true).1 = true ∧
    (start_stream p id true).2.1.active_streams.count id = p.active_streams.count id + 1 ∧
    start_stream (start_stream p id true).2.1 id ok₂ =
      (false, (start_stream p id true).2.1, 0) ∧
    (start_stream_analytics (start_stream p id true).2.1 id ok₂).1 = (500, false) ∧
    (start_stream_analytics (start_stream p id true).2.1 id ok₂).2.active_streams.count id =
      p.active_streams.count id + 1 := by
  have hmem : id ∈ (start_stream p id true).2.1.active_streams := by
    simp [start_stream, h]
  refine ⟨by simp [start_stream, h], ?_, ?_, ?_, ?_⟩
  · simp [start_stream, h, List.count_append]
  · simp [start_stream, h]
  · simp [start_stream_analytics, start_stream, h]
  · simp [start_stream_analytics, start_stream, h, List.count_append]

/-- C5, witness at a fresh pipeline and stream id. -/
theorem c5_start_not_idempotent_witness :
    ("S" ∉ (⟨[]⟩ : Pipeline).active_streams) ∧
    (start_stream ⟨[]⟩ "S" true).1 = true ∧
    start_stream (start_stream ⟨[]⟩ "S" true).2.1 "S" true =
      (false, (start_stream ⟨[]⟩ "S" true).2.1, 0) ∧
    (start_stream_analytics (start_stream ⟨[]⟩ "S" true).2.1 "S" true).1 = (500, false) := by
  have h := c5_start_not_idempotent ⟨[]⟩ "S" true (by decide)
  exact ⟨by decide, h.1, h.2.2.1, h.2.2.2.1⟩

/-! ## C6 — `POST /analytics/process_frame`
(src/analytics/main.py, lines 150–212)

`base64.b64decode` + `cv2.imdecode` are the external decode step, modelled
as an oracle returning `Option F` (`none` both when decoding raises and
when `imdecode` yields `None`, since the code turns the latter into a
raised `ValueError`).  The two analyzers are oracles returning `Option`
branch results (`none` = the gathered exception path that nulls the
branch).  The whole endpoint body sits in one `try/except Exception`, which
responds with the `AnalyticsResponse` model — always HTTP 200 — and
`success=false` plus the error text; there is no `HTTPException(400)`. -/

/-- The wire response of `/analytics/process_frame`: HTTP status, `success`
flag and optional error string. -/
structure FrameResponse where
  status : ℕ
  success : Bool
  error : Option String

/-- The analytics record assembled by `process_frame` (branch results only;
`none` marks a nulled branch). -/
structure CombinedRec (VA MA : Type) where
  vibrio : Option VA
  moriarty : Option MA

/-- `process_frame` (main.py lines 150–212): decode, run both analyzers,
store, respond.  Returns the response together with the list of store
writes attempted (stream id and record).  `storeOk = false` models an
exception raised by the store/notify calls after the write was issued. -/
def process_frame {F VA MA : Type} (decode : String → Option F)
    (vib : F → Option VA) (mor : F → Option MA) (storeOk : Bool)
    (stream_id frame_data : String) :
    FrameResponse × List (String × CombinedRec VA MA) :=
  match decode frame_data with
  | none => (⟨200, false, some "Invalid frame data"⟩, [])
  | some f =>
    let record : CombinedRec VA MA := ⟨vib f, mor f⟩
    if storeOk then
      (⟨200, true, none⟩, [(stream_id, record)])
    else
      (⟨200, false, some "store error"⟩, [(stream_id, record)])

/-- C6, counterexample.  An undecodable frame is answered with HTTP 200 and
`success = false` — not HTTP 400 — though indeed nothing is written to the
store. -/
theorem c6_bad_frame_not_400 :
    (@process_frame Unit Unit Unit (fun _ => none)
        (fun _ => some ()) (fun _ => some ()) true "s1" "xx").1.status = 200 ∧
    (@process_frame Unit Unit Unit (fun _ => none)
        (fun _ => some ()) (fun _ => some ()) true "s1" "xx").1.status ≠ 400 ∧
    (@process_frame Unit Unit Unit (fun _ => none)
        (fun _ => some ()) (fun _ => some ()) true "s1" "xx").1.success = false ∧
    (@process_frame Unit Unit Unit (fun _ => none)
        (fun _ => some ()) (fun _ => some ()) true "s1" "xx").2 = [] := by
  refine ⟨rfl, by decide, rfl, rfl⟩

/-- C6, amended.  An undecodable frame yields HTTP 200 with
`success = false` and an error message, and nothing is written to the
store; a decodable frame is always answered with HTTP 200 and is written to
the store exactly once, with `success = true` even when one or both
analysis branches fail (failed branches are nulled in the record). -/
theorem c6_process_frame_statuses {F VA MA : Type} (decode : String → Option F)
    (vib : F → Option VA) (mor : F → Option MA) (sid fd : String) :
    (decode fd = none →
      process_frame decode vib mor true sid fd =
        (⟨200, false, some "Invalid frame data"⟩, [])) ∧
    (∀ f, decode fd = some f →
      process_frame decode vib mor true sid fd =
        (⟨200, true, none⟩, [(sid, ⟨vib f, mor f⟩)])) := by
  constructor
  · intro h
    simp [process_frame, h]
  · intro f h
    simp [process_frame, h]

/-- C6, witness: one undecodable and one decodable request. -/
theorem c6_process_frame_statuses_witness :
    @process_frame Unit Unit Unit (fun _ => none)
        (fun _ => none) (fun _ => some ()) true "s1" "xx" =
      (⟨200, false, some "Invalid frame data"⟩, []) ∧
    @process_frame Unit Unit Unit (fun _ => some ())
        (fun _ => none) (fun _ => some ()) true "s1" "yy" =
      (⟨200, true, none⟩, [("s1", ⟨none, some ()⟩)]) := by
  constructor
  · exact (c6_process_frame_statuses (fun _ => none) (fun _ => none)
      (fun _ => some ()) "s1" "xx").1 rfl
  · exact (c6_process_frame_statuses (fun _ => some ()) (fun _ => none)
      (fun _ => some ()) "s1" "yy").2 () rfl

/-! ## C7 — `MetacognitiveOrchestrator.analyze_system_health`
(src/orchestrator/main.py, lines 218–231, with the classification from
`check_service_health`, lines 177–216, and the loop from
`health_monitoring_loop`, lines 158–167).

A probe cycle produces one outcome per named service — either an HTTP
status code or a raised exception.  `analyze_system_health` looks only at
the current `service_health` dict; it keeps no history of previous
cycles. -/

/-- `ServiceStatus` (orchestrator main.py lines 16–20). -/
inductive ServiceStatus where
  | healthy
  | degraded
  | unhealthy
  | unknown
deriving DecidableEq, Repr

/-- The four named services of `MetacognitiveOrchestrator.__init__`. -/
def orchestratorServices : List String := ["core", "analytics", "api", "frontend"]

/-- Outcome of probing one service: an HTTP status code, or an exception. -/
inductive ProbeOutcome where
  | ok (code : ℕ)
  | exc (msg : String)

/-- Classification of one probe (`check_service_health`): 200 → Healthy,
≥ 500 → Unhealthy, other codes → Degraded, exception → Unhealthy. -/
def classifyProbe : ProbeOutcome → ServiceStatus
  | .ok code => if code = 200 then .healthy
                else if 500 ≤ code then .unhealthy
                else .degraded
  | .exc _ => .unhealthy

/-- `check_all_services_health`: the `service_health` dict after one probe
cycle, one entry per named service. -/
def checkAllServices (probe : String → ProbeOutcome) : List (String × ServiceStatus) :=
  orchestratorServices.map (fun n => (n, classifyProbe (probe n)))

/-- Action chosen by `analyze_system_health`. -/
inductive HealthAction where
  | emergencyShutdown
  | recovery (unhealthy : List String)
  | noAction
deriving DecidableEq, Repr

/-- `analyze_system_health` (lines 218–231): emergency shutdown iff the
unhealthy entries of the current `service_health` dict outnumber
`len(services) // 2`; otherwise attempt recovery of any unhealthy ones. -/
def analyze_system_health (service_health : List (String × ServiceStatus)) : HealthAction :=
  let unhealthy := (service_health.filter (fun p => p.2 = ServiceStatus.unhealthy)).map Prod.fst
  if orchestratorServices.length / 2 < unhealthy.length then
    .emergencyShutdown
  else
    match unhealthy with
    | [] => .noAction
    | _ :: _ => .recovery unhealthy

/-- One iteration of `health_monitoring_loop`: probe all services, then
analyse. -/
def healthCycle (probe : String → ProbeOutcome) : HealthAction :=
  analyze_system_health (checkAllServices probe)

/-- `health_monitoring_loop` over a finite schedule of probe cycles: the
action taken after each cycle, in order. -/
def healthLoop (probes : List (String → ProbeOutcome)) : List HealthAction :=
  probes.map healthCycle

/-- A probe cycle in which core, analytics and api time out while frontend
answers 200. -/
def threeDownProbe : String → ProbeOutcome :=
  fun n => if n = "frontend" then .ok 200 else .exc "timeout"

/-- C7, counterexample.  On the very first probe cycle with three of the
four services unhealthy, the supervisor immediately initiates emergency
shutdown — there is no requirement of two consecutive majority-unhealthy
cycles. -/
theorem c7_single_cycle_shutdown :
    healthLoop [threeDownProbe] = [HealthAction.emergencyShutdown] := by
  decide

/-- C7, amended.  Emergency shutdown is initiated after exactly the probe
cycles in which strictly more than `len(services) // 2` (= 2 of 4) of the
current cycle's classifications are Unhealthy; the decision depends only on
the current cycle, never on the previous one. -/
theorem c7_shutdown_is_per_cycle (probe : String → ProbeOutcome) :
    (healthCycle probe = HealthAction.emergencyShutdown ↔
      orchestratorServices.length / 2 <
        (orchestratorServices.filter
          (fun n => classifyProbe (probe n) = ServiceStatus.unhealthy)).length) ∧
    ∀ probes : List (String → ProbeOutcome), healthLoop probes = probes.map healthCycle := by
  constructor
  · constructor
    · intro h
      by_contra hc
      simp only [healthCycle, analyze_system_health, checkAllServices,
        List.filter_map, List.map_map] at h
      rw [if_neg] at h
      · revert h
        split <;> simp
      · simpa [Function.comp, List.length_filter_le] using hc
    · intro h
      simp only [healthCycle, analyze_system_health, checkAllServices,
        List.filter_map, List.map_map]
      rw [if_pos]
      simpa [Function.comp] using h
  · intro probes
    rfl

/-- C7, witness at the three-down probe cycle. -/
theorem c7_shutdown_is_per_cycle_witness :
    healthCycle threeDownProbe = HealthAction.emergencyShutdown ∧
    orchestratorServices.length / 2 <
      (orchestratorServices.filter
        (fun n => classifyProbe (threeDownProbe n) = ServiceStatus.unhealthy)).length := by
  have h := c7_shutdown_is_per_cycle threeDownProbe
  exact ⟨h.1.mpr (by decide), by decide⟩

/-! ## C8 — `KinematicsAnalyzer.calculate_joint_angles`
(src/analytics/frameworks/moriarty.py, lines 127–161)

Landmarks carry pixel coordinates and a visibility, all real-valued.  A
pose's landmark dictionary is a partial map from names; a missing name is
the `KeyError → continue` path.  `np.clip(x, −1, 1) = min (max x (−1)) 1`,
`np.degrees α = α · 180 / π`. -/

/-- A pose landmark `(x_px, y_px, visibility)`. -/
structure Landmark where
  x : ℝ
  y : ℝ
  visibility : ℝ

/-- A joint-angle definition (`JointAngle` in moriarty.py lines 28–34). -/
structure JointDef where
  name : String
  point1 : String
  joint : String
  point3 : String

/-- `KinematicsAnalyzer.calculate_angle_between_vectors` (lines 127–138):
degrees of the angle at `center` between `p1` and `p3`, with the cosine
clipped to `[−1, 1]` before `arccos`. -/
noncomputable def calculate_angle_between_vectors (p1 center p3 : ℝ × ℝ) : ℝ :=
  let v1 : ℝ × ℝ := (p1.1 - center.1, p1.2 - center.2)
  let v2 : ℝ × ℝ := (p3.1 - center.1, p3.2 - center.2)
  let cos_angle := (v1.1 * v2.1 + v1.2 * v2.2) /
    (Real.sqrt (v1.1 ^ 2 + v1.2 ^ 2) * Real.sqrt (v2.1 ^ 2 + v2.2 ^ 2))
  let clipped := min (max cos_angle (-1)) 1
  Real.arccos clipped * (180 / Real.pi)

/-- One iteration of the loop body of `calculate_joint_angles`
(lines 144–159): `none` on a missing landmark (`KeyError`) or on any
visibility below 0.5, otherwise the computed angle. -/
noncomputable def jointAngleOf (landmarks : String → Option Landmark)
    (jd : JointDef) : Option ℝ :=
  match landmarks jd.point1, landmarks jd.joint, landmarks jd.point3 with
  | some p1, some c, some p3 =>
    if p1.visibility < 1/2 ∨ c.visibility < 1/2 ∨ p3.visibility < 1/2 then
      none
    else
      some (calculate_angle_between_vectors (p1.x, p1.y) (c.x, c.y) (p3.x, p3.y))
  | _, _, _ => none

/-- `KinematicsAnalyzer.calculate_joint_angles` (lines 140–161): the angle
dictionary, as the association list of computed joint angles. -/
noncomputable def calculate_joint_angles (landmarks : String → Option Landmark)
    (defs : List JointDef) : List (String × ℝ) :=
  defs.filterMap (fun jd => (jointAngleOf landmarks jd).map (fun a => (jd.name, a)))

theorem arccos_degrees_mem_Icc (x : ℝ) :
    0 ≤ Real.arccos (min (max x (-1)) 1) * (180 / Real.pi) ∧
    Real.arccos (min (max x (-1)) 1) * (180 / Real.pi) ≤ 180 := by
  have hpi : 0 < Real.pi := Real.pi_pos
  constructor
  · have h0 : 0 ≤ Real.arccos (min (max x (-1)) 1) := Real.arccos_nonneg _
    positivity
  · have h1 : Real.arccos (min (max x (-1)) 1) ≤ Real.pi := Real.arccos_le_pi _
    calc Real.arccos (min (max x (-1)) 1) * (180 / Real.pi)
        ≤ Real.pi * (180 / Real.pi) := by
          have : (0 : ℝ) ≤ 180 / Real.pi := by positivity
          exact mul_le_mul_of_nonneg_right h1 this
      _ = 180 := by field_simp

/-- C8.  For every landmark map and joint definition with neighbours
`point1` and `point3`: when any of the three landmarks is missing or has
visibility < 0.5 the joint angle is absent; otherwise the reported angle is
the degrees of the arccos of the clipped cosine of the angle between
`a − j` and `c − j` in 2D pixel coordinates, and every reported angle lies
in `[0, 180]`. -/
theorem c8_joint_angle_correct (landmarks : String → Option Landmark) (jd : JointDef) :
    ((landmarks jd.point1 = none ∨ landmarks jd.joint = none ∨
        landmarks jd.point3 = none) → jointAngleOf landmarks jd = none) ∧
    (∀ p1 c p3, landmarks jd.point1 = some p1 → landmarks jd.joint = some c →
      landmarks jd.point3 = some p3 →
      (p1.visibility < 1/2 ∨ c.visibility < 1/2 ∨ p3.visibility < 1/2 →
        jointAngleOf landmarks jd = none) ∧
      (¬ (p1.visibility < 1/2 ∨ c.visibility < 1/2 ∨ p3.visibility < 1/2) →
        jointAngleOf landmarks jd =
          some (calculate_angle_between_vectors (p1.x, p1.y) (c.x, c.y) (p3.x, p3.y)))) ∧
    (∀ a, jointAngleOf landmarks jd = some a → 0 ≤ a ∧ a ≤ 180) := by
  refine ⟨?_, ?_, ?_⟩
  · intro h
    rcases hp1 : landmarks jd.point1 with _ | p1 <;>
      rcases hpj : landmarks jd.joint with _ | cj <;>
        rcases hp3 : landmarks jd.point3 with _ | p3 <;>
          simp_all [jointAngleOf]
  · intro p1 c p3 h1 h2 h3
    constructor
    · intro hvis
      simp only [jointAngleOf, h1, h2, h3]
      rw [if_pos hvis]
    · intro hvis
      simp only [jointAngleOf, h1, h2, h3]
      rw [if_neg hvis]
  · intro a ha
    simp only [jointAngleOf] at ha
    split at ha
    · split at ha
      · exact absurd ha (by simp)
      · simp only [Option.some.injEq] at ha
        subst ha
        exact arccos_degrees_mem_Icc _
    · exact absurd ha (by simp)

/-- A right-angle pose: `a = (1,0)`, `j = (0,0)`, `c = (0,1)`, all fully
visible. -/
noncomputable def rightAngleLandmarks : String → Option Landmark :=
  fun n => if n = "a" then some ⟨1, 0, 1⟩
           else if n = "j" then some ⟨0, 0, 1⟩
           else if n = "c" then some ⟨0, 1, 1⟩
           else none

/-- C8, witness: on the right-angle pose the elbow angle is present and
equals 90 degrees (inside `[0, 180]`), and making one landmark barely
visible removes it. -/
theorem c8_joint_angle_correct_witness :
    jointAngleOf rightAngleLandmarks ⟨"elbow", "a", "j", "c"⟩ = some 90 ∧
    jointAngleOf (fun n => if n = "a" then some ⟨1, 0, 1/4⟩ else rightAngleLandmarks n)
      ⟨"elbow", "a", "j", "c"⟩ = none ∧
    (0 : ℝ) ≤ 90 ∧ (90 : ℝ) ≤ 180 := by
  have h := c8_joint_angle_correct rightAngleLandmarks ⟨"elbow", "a", "j", "c"⟩
  have hval : jointAngleOf rightAngleLandmarks ⟨"elbow", "a", "j", "c"⟩ =
      some (calculate_angle_between_vectors (1, 0) (0, 0) (0, 1)) := by
    have := (h.2.1 ⟨1, 0, 1⟩ ⟨0, 0, 1⟩ ⟨0, 1, 1⟩ (by simp [rightAngleLandmarks])
      (by simp [rightAngleLandmarks]) (by simp [rightAngleLandmarks])).2 (by norm_num)
    simpa using this
  have hangle : calculate_angle_between_vectors ((1 : ℝ), (0 : ℝ)) (0, 0) (0, 1) = 90 := by
    have hpi : Real.pi ≠ 0 := ne_of_gt Real.pi_pos
    simp only [calculate_angle_between_vectors]
    norm_num [Real.arccos_zero]
    field_simp
    ring
  have hlow := (c8_joint_angle_correct
      (fun n => if n = "a" then some ⟨1, 0, 1/4⟩ else rightAngleLandmarks n)
      ⟨"elbow", "a", "j", "c"⟩).2.1 ⟨1, 0, 1/4⟩ ⟨0, 0, 1⟩ ⟨0, 1, 1⟩
      (by simp) (by simp [rightAngleLandmarks]) (by simp [rightAngleLandmarks])
  refine ⟨by rw [hval, hangle], ?_, by norm_num, by norm_num⟩
  exact hlow.1 (by norm_num)

/-! ## C3 / C9 — `HumanTracker.update` and `SpeedEstimator.estimate_speed`
(src/analytics/frameworks/vibrio.py, lines 20–57, 98–230 and 232–265)

Detections and tracks are embedded with their full numeric state: bbox and
confidence over `ℚ`, the 7-dimensional Kalman state with its covariance
matrices over `ℚ` (`np.linalg.inv` becomes division by the determinant via
the adjugate), and the speed history over `ℝ` (`np.linalg.norm` introduces
a square root). -/

/-- A bounding box `[x1, y1, x2, y2]`. -/
structure Bbox where
  x1 : ℚ
  y1 : ℚ
  x2 : ℚ
  y2 : ℚ

/-- `Detection` (vibrio.py lines 20–27). -/
structure Detection where
  bbox : Bbox
  confidence : ℚ

/-- The derived `center` of a detection. -/
def Detection.center (d : Detection) : ℚ × ℚ :=
  ((d.bbox.x1 + d.bbox.x2) / 2, (d.bbox.y1 + d.bbox.y2) / 2)

/-- `Track` (vibrio.py lines 29–57): counters, histories and Kalman state. -/
structure Track where
  track_id : ℕ
  detections : List Detection
  positions : List (ℚ × ℚ)
  speeds : List ℝ
  current_speed : ℝ
  age : ℕ
  hits : ℕ
  time_since_update : ℕ
  state : Fin 7 → ℚ
  P : Matrix (Fin 7) (Fin 7) ℚ
  Q : Matrix (Fin 7) (Fin 7) ℚ
  R : Matrix (Fin 4) (Fin 4) ℚ

/-- `Track.__init__` (lines 31–57): fresh track from a detection, with
`P = 1000·I`, `Q = I` with the velocity block scaled by 0.01, `R = 10·I`. -/
noncomputable def Track.init (tid : ℕ) (d : Detection) : Track where
  track_id := tid
  detections := [d]
  positions := [d.center]
  speeds := []
  current_speed := 0
  age := 0
  hits := 1
  time_since_update := 0
  state := ![d.center.1, d.center.2, d.bbox.x2 - d.bbox.x1, d.bbox.y2 - d.bbox.y1, 0, 0, 0]
  P := (1000 : ℚ) • (1 : Matrix (Fin 7) (Fin 7) ℚ)
  Q := Matrix.diagonal ![1, 1, 1, 1, 1/100, 1/100, 1]
  R := (10 : ℚ) • (1 : Matrix (Fin 4) (Fin 4) ℚ)

/-- The state transition matrix `F` (lines 209–212): identity plus the
constant-velocity couplings `(0,4)`, `(1,5)`, `(2,6)`. -/
def kalmanF : Matrix (Fin 7) (Fin 7) ℚ :=
  Matrix.of fun i j =>
    if i = j then 1
    else if (i.val, j.val) ∈ [(0, 4), (1, 5), (2, 6)] then 1
    else 0

/-- The measurement matrix `H = np.eye(4, 7)` (line 218). -/
def kalmanH : Matrix (Fin 4) (Fin 7) ℚ :=
  Matrix.of fun i j => if i.val = j.val then 1 else 0

/-- `np.linalg.inv` on the 4×4 innovation covariance, as the adjugate
divided by the determinant. -/
def mat4Inv (A : Matrix (Fin 4) (Fin 4) ℚ) : Matrix (Fin 4) (Fin 4) ℚ :=
  (A.det)⁻¹ • A.adjugate

/-- `HumanTracker._update_kalman_filter` (lines 206–230): predict with `F`,
then correct with measurement `[cx, cy, w, h]`. -/
noncomputable def update_kalman_filter (t : Track) (d : Detection) : Track :=
  let state1 := kalmanF.mulVec t.state
  let P1 := kalmanF * t.P * kalmanF.transpose + t.Q
  let measurement : Fin 4 → ℚ :=
    ![d.center.1, d.center.2, d.bbox.x2 - d.bbox.x1, d.bbox.y2 - d.bbox.y1]
  let y := measurement - kalmanH.mulVec state1
  let S := kalmanH * P1 * kalmanH.transpose + t.R
  let K := P1 * kalmanH.transpose * mat4Inv S
  { t with state := state1 + K.mulVec y, P := (1 - K * kalmanH) * P1 }

/-- The bbox predicted from a track's Kalman state (lines 135–140). -/
def predictedBbox (t : Track) : Bbox :=
  ⟨t.state 0 - t.state 2 / 2, t.state 1 - t.state 3 / 2,
   t.state 0 + t.state 2 / 2, t.state 1 + t.state 3 / 2⟩

/-- `HumanTracker._calculate_iou` (lines 108–123). -/
def calculate_iou (b1 b2 : Bbox) : ℚ :=
  let x1 := max b1.x1 b2.x1
  let y1 := max b1.y1 b2.y1
  let x2 := min b1.x2 b2.x2
  let y2 := min b1.y2 b2.y2
  if x2 ≤ x1 ∨ y2 ≤ y1 then 0
  else
    let intersection := (x2 - x1) * (y2 - y1)
    let area1 := (b1.x2 - b1.x1) * (b1.y2 - b1.y1)
    let area2 := (b2.x2 - b2.x1) * (b2.y2 - b2.y1)
    let union := area1 + area2 - intersection
    if 0 < union then intersection / union else 0

/-- Entry `(d, t)` of the IoU matrix (lines 130–141). -/
noncomputable def iouEntry (dets : List Detection) (tracks : List Track) (d t : ℕ) : ℚ :=
  match dets.get? d, tracks.get? t with
  | some det, some tr => calculate_iou det.bbox (predictedBbox tr)
  | _, _ => 0

/-- The inner double loop of the greedy assignment (lines 150–157): scan
unmatched detections (outer) and unmatched tracks (inner), keeping the
first pair strictly exceeding both the current maximum (initially 0) and
the IoU threshold. -/
def findBestPair (iou : ℕ → ℕ → ℚ) (thr : ℚ) (uds uts : List ℕ) :
    ℚ × Option (ℕ × ℕ) :=
  (uds.flatMap fun d => uts.map fun t => (d, t)).foldl
    (fun acc p => if acc.1 < iou p.1 p.2 ∧ thr < iou p.1 p.2 then (iou p.1 p.2, some p) else acc)
    (0, none)

/-- The `while` loop of the greedy assignment (lines 149–164), with fuel:
each iteration removes one unmatched detection, so `uds.length` iterations
suffice. -/
def greedyLoop (iou : ℕ → ℕ → ℚ) (thr : ℚ) :
    ℕ → List (ℕ × ℕ) → List ℕ → List ℕ → List (ℕ × ℕ) × List ℕ × List ℕ
  | 0, m, uds, uts => (m, uds, uts)
  | fuel + 1, m, uds, uts =>
    if uds.isEmpty ∨ uts.isEmpty then (m, uds, uts)
    else
      match (findBestPair iou thr uds uts).2 with
      | none => (m, uds, uts)
      | some p => greedyLoop iou thr fuel (m ++ [p]) (uds.erase p.1) (uts.erase p.2)

/-- `HumanTracker._associate_detections_to_tracks` (lines 125–166):
returns `(matched pairs, unmatched detection indices, unmatched track
indices)`. -/
noncomputable def associate_detections_to_tracks (dets : List Detection)
    (tracks : List Track) (thr : ℚ) : List (ℕ × ℕ) × List ℕ × List ℕ :=
  match tracks with
  | [] => ([], List.range dets.length, [])
  | _ :: _ =>
    greedyLoop (iouEntry dets tracks) thr dets.length []
      (List.range dets.length) (List.range tracks.length)

/-- The matched-track update (lines 174–186): append the detection and its
center, bump `hits`, reset `time_since_update`, then run the Kalman
update. -/
noncomputable def applyMatch (t : Track) (d : Detection) : Track :=
  update_kalman_filter
    { t with detections := t.detections ++ [d],
             positions := t.positions ++ [d.center],
             hits := t.hits + 1,
             time_since_update := 0 } d

/-- The unmatched-track update (lines 194–196). -/
def ageTrack (t : Track) : Track :=
  { t with time_since_update := t.time_since_update + 1 }

/-- `HumanTracker` (lines 98–106). -/
structure Tracker where
  max_age : ℕ
  min_hits : ℕ
  iou_threshold : ℚ
  tracks : List Track
  track_id_counter : ℕ

/-- Fallback detection for the (unreachable) out-of-range index lookups. -/
def defaultDetection : Detection := ⟨⟨0, 0, 0, 0⟩, 0⟩

/-- Indexed map starting at a given index (the loop-with-index idiom). -/
def mapIdxFrom (f : ℕ → α → β) : ℕ → List α → List β
  | _, [] => []
  | i, a :: as => f i a :: mapIdxFrom f (i + 1) as

/-- The track pool after one `update` step, before reaping (lines 170–196):
matched tracks updated, unmatched tracks aged, new tracks spawned for
unmatched detections. -/
noncomputable def updatePool (tr : Tracker) (dets : List Detection) : List Track :=
  let assoc := associate_detections_to_tracks dets tr.tracks tr.iou_threshold
  let tracks1 := mapIdxFrom (fun i t =>
    match assoc.1.find? (fun p => p.2 == i) with
    | some p => applyMatch t (dets.getD p.1 defaultDetection)
    | none => if i ∈ assoc.2.2 then ageTrack t else t) 0 tr.tracks
  let newTracks := mapIdxFrom (fun k di =>
    Track.init (tr.track_id_counter + k) (dets.getD di defaultDetection)) 0 assoc.2.1
  tracks1 ++ newTracks

/-- `HumanTracker.update` (lines 168–204): associate, update/spawn/age,
reap tracks with `time_since_update ≥ max_age` (the code keeps exactly
those with `time_since_update < max_age`), and emit the retained tracks
with `hits ≥ min_hits` or `time_since_update == 0`. -/
noncomputable def HumanTracker.update (tr : Tracker) (dets : List Detection) :
    Tracker × List Track :=
  let assoc := associate_detections_to_tracks dets tr.tracks tr.iou_threshold
  let kept := (updatePool tr dets).filter (fun t => t.time_since_update < tr.max_age)
  ({ tr with tracks := kept,
             track_id_counter := tr.track_id_counter + assoc.2.1.length },
   kept.filter (fun t => tr.min_hits ≤ t.hits ∨ t.time_since_update = 0))

/-- A concrete detection used in the tracker scenarios. -/
def d0 : Detection := ⟨⟨0, 0, 10, 10⟩, 9/10⟩

/-- A fresh tracker with `max_age = 1`, `min_hits = 3`, standard IoU
threshold. -/
def trMaxAge1 : Tracker := ⟨1, 3, 3/10, [], 0⟩

/-- The tracker after one update of `trMaxAge1` with a single detection. -/
noncomputable def trAfterFirst : Tracker := (HumanTracker.update trMaxAge1 [d0]).1

/-- A fresh tracker with `max_age = 5`, `min_hits = 1`. -/
def trMaxAge5 : Tracker := ⟨5, 1, 3/10, [], 0⟩

/-- The tracker after one update of `trMaxAge5` with a single detection. -/
noncomputable def trAfterFirst5 : Tracker := (HumanTracker.update trMaxAge5 [d0]).1

/-- C3, counterexample.  With `max_age = 1`: after a first update a single
track exists with `time_since_update = 0`; one update with no detections
raises its `time_since_update` to 1 = `max_age` — and the track is
destroyed, although the claim says a track whose `time_since_update`
*equals* `max_age` still exists. -/
theorem c3_reaped_at_equal_max_age :
    trAfterFirst.tracks.map Track.time_since_update = [0] ∧
    trAfterFirst.max_age = 1 ∧
    (updatePool trAfterFirst []).map Track.time_since_update = [1] ∧
    (HumanTracker.update trAfterFirst []).1.tracks = [] := by
  refine ⟨rfl, rfl, rfl, rfl⟩

/-- C3, amended.  For every tracker state and detection list: the retained
set is exactly the post-association pool filtered by
`time_since_update < max_age` (so a track is destroyed exactly when
`time_since_update ≥ max_age`, including equality); every retained track
satisfies the bound; the emitted list is exactly the retained tracks with
`hits ≥ min_hits` or `time_since_update = 0`; a matched update resets
`time_since_update` to 0 and increments `hits`; an unmatched frame
increments `time_since_update` by exactly 1; a fresh track starts with
`time_since_update = 0` and `hits = 1`. -/
theorem c3_tracker_lifecycle (tr : Tracker) (dets : List Detection) :
    ((HumanTracker.update tr dets).1.tracks =
      (updatePool tr dets).filter (fun t => t.time_since_update < tr.max_age)) ∧
    (∀ t ∈ (HumanTracker.update tr dets).1.tracks, t.time_since_update < tr.max_age) ∧
    (∀ t ∈ updatePool tr dets,
      (t ∈ (HumanTracker.update tr dets).1.tracks ↔ t.time_since_update < tr.max_age)) ∧
    ((HumanTracker.update tr dets).2 =
      (HumanTracker.update tr dets).1.tracks.filter
        (fun t => tr.min_hits ≤ t.hits ∨ t.time_since_update = 0)) ∧
    (∀ t d, (applyMatch t d).time_since_update = 0 ∧ (applyMatch t d).hits = t.hits + 1) ∧
    (∀ t, (ageTrack t).time_since_update = t.time_since_update + 1) ∧
    (∀ tid d, (Track.init tid d).time_since_update = 0 ∧ (Track.init tid d).hits = 1) := by
  refine ⟨rfl, ?_, ?_, rfl, ?_, ?_, ?_⟩
  · intro t ht
    have : t ∈ (updatePool tr dets).filter
        (fun t => t.time_since_update < tr.max_age) := ht
    simpa using (List.mem_filter.mp this).2
  · intro t ht
    constructor
    · intro hmem
      have : t ∈ (updatePool tr dets).filter
          (fun t => t.time_since_update < tr.max_age) := hmem
      simpa using (List.mem_filter.mp this).2
    · intro hlt
      show t ∈ (updatePool tr dets).filter (fun t => t.time_since_update < tr.max_age)
      exact List.mem_filter.mpr ⟨ht, by simpa using hlt⟩
  · intro t d
    exact ⟨rfl, rfl⟩
  · intro t
    rfl
  · intro tid d
    exact ⟨rfl, rfl⟩

/-- C3, witness for the lifecycle theorem: with `max_age = 5`, the aged
track after a missed frame has `time_since_update = 1 < 5` and is retained
and emitted. -/
theorem c3_tracker_lifecycle_witness :
    (ageTrack (Track.init 0 d0) ∈ updatePool trAfterFirst5 []) ∧
    (ageTrack (Track.init 0 d0) ∈ (HumanTracker.update trAfterFirst5 []).1.tracks) ∧
    (ageTrack (Track.init 0 d0)).time_since_update < trAfterFirst5.max_age ∧
    (HumanTracker.update trAfterFirst5 []).2 =
      (HumanTracker.update trAfterFirst5 []).1.tracks.filter
        (fun t => trAfterFirst5.min_hits ≤ t.hits ∨ t.time_since_update = 0) := by
  have h := c3_tracker_lifecycle trAfterFirst5 []
  have hpool : updatePool trAfterFirst5 [] = [ageTrack (Track.init 0 d0)] := rfl
  have hmem : ageTrack (Track.init 0 d0) ∈ updatePool trAfterFirst5 [] := by
    rw [hpool]
    exact List.mem_singleton.mpr rfl
  have hlt : (ageTrack (Track.init 0 d0)).time_since_update < trAfterFirst5.max_age := by
    show (1 : ℕ) < 5
    decide
  exact ⟨hmem, (h.2.2.1 _ hmem).mpr hlt, hlt, h.2.2.2.1⟩

/-- `SpeedEstimator` (vibrio.py lines 232–238): fps, pixel-to-meter ratio,
smoothing window (defaults 30, 0.01, 5). -/
structure SpeedEstimator where
  fps : ℚ
  pixel_to_meter : ℚ
  smoothing_window : ℕ

/-- `SpeedEstimator.estimate_speed` (lines 240–265): displacement of the
two most recent centers, converted to km/h, appended to the bounded speed
history (`deque(maxlen=10)`), and reported as the mean of the trailing
window (all recorded speeds when fewer than the window).  Returns the
updated track and the reported speed. -/
noncomputable def estimate_speed (est : SpeedEstimator) (t : Track) : Track × ℝ :=
  if t.positions.length < 2 then (t, 0)
  else
    let pos1 := t.positions.getD (t.positions.length - 2) (0, 0)
    let pos2 := t.positions.getD (t.positions.length - 1) (0, 0)
    let displacement_pixels : ℝ :=
      Real.sqrt (((pos2.1 - pos1.1 : ℚ) : ℝ) ^ 2 + ((pos2.2 - pos1.2 : ℚ) : ℝ) ^ 2)
    let displacement_meters := displacement_pixels * (est.pixel_to_meter : ℝ)
    let speed_ms := displacement_meters * (est.fps : ℝ)
    let speed_kmh := speed_ms * 3.6
    let speeds := lastN 10 (t.speeds ++ [speed_kmh])
    let current_speed :=
      if est.smoothing_window ≤ speeds.length then rMean (lastN est.smoothing_window speeds)
      else rMean speeds
    ({ t with speeds := speeds, current_speed := current_speed }, current_speed)

/-- The speed conversion demanded by the claim: pixel displacement between
the two most recent centers, times `pixel_to_meter` times FPS for m/s,
times 3.6 for km/h.  Second definition written from the claim's words, for
comparison with the code. -/
noncomputable def specSpeedKmh (est : SpeedEstimator) (p q : ℚ × ℚ) : ℝ :=
  Real.sqrt (((q.1 - p.1 : ℚ) : ℝ) ^ 2 + ((q.2 - p.2 : ℚ) : ℝ) ^ 2) *
    ((est.pixel_to_meter : ℝ) * (est.fps : ℝ)) * 3.6

theorem lastN_of_length_le (n : ℕ) (l : List α) (h : l.length ≤ n) : lastN n l = l := by
  unfold lastN
  rw [Nat.sub_eq_zero_of_le h, List.drop_zero]

/-- The concrete track of the spec's speed scenario: positions `(0,0)` then
`(300,0)`, empty speed history. -/
noncomputable def track324 : Track :=
  { Track.init 0 defaultDetection with positions := [(0, 0), (300, 0)], speeds := [] }

/-- The estimator of the spec's speed scenario: 30 FPS,
`pixel_to_meter = 0.01`, `smoothing_window = 1`. -/
def est324 : SpeedEstimator := ⟨30, 1/100, 1⟩

/-- C9.  A track with fewer than two positions reports 0; with at least two
positions the reported speed is the mean of the trailing
`smoothing_window` of the speed history after appending the converted
displacement of the two most recent centers (`pixel_to_meter · fps · 3.6`);
and the concrete scenario `(0,0) → (300,0)` at 30 FPS with
`pixel_to_meter = 0.01` and window 1 reports exactly 324 km/h. -/
theorem c9_estimate_speed_correct (est : SpeedEstimator) (t : Track) :
    (t.positions.length < 2 → estimate_speed est t = (t, 0)) ∧
    (2 ≤ t.positions.length →
      (estimate_speed est t).2 =
        rMean (lastN est.smoothing_window (lastN 10 (t.speeds ++
          [specSpeedKmh est (t.positions.getD (t.positions.length - 2) (0, 0))
            (t.positions.getD (t.positions.length - 1) (0, 0))])))) ∧
    (estimate_speed est324 track324).2 = 324 := by
  refine ⟨?_, ?_, ?_⟩
  · intro h
    simp [estimate_speed, h]
  · intro h
    have hnl : ¬ t.positions.length < 2 := not_lt.mpr h
    simp only [estimate_speed, hnl, if_false]
    have hval : (Real.sqrt
        (((t.positions.getD (t.positions.length - 1) (0, 0)).1 -
            (t.positions.getD (t.positions.length - 2) (0, 0)).1 : ℚ) ^ 2 +
          ((t.positions.getD (t.positions.length - 1) (0, 0)).2 -
            (t.positions.getD (t.positions.length - 2) (0, 0)).2 : ℚ) ^ 2) *
          (est.pixel_to_meter : ℝ) * (est.fps : ℝ) * 3.6) =
        specSpeedKmh est (t.positions.getD (t.positions.length - 2) (0, 0))
          (t.positions.getD (t.positions.length - 1) (0, 0)) := by
      unfold specSpeedKmh
      push_cast
      ring
    rw [hval]
    set speeds := lastN 10 (t.speeds ++
      [specSpeedKmh est (t.positions.getD (t.positions.length - 2) (0, 0))
        (t.positions.getD (t.positions.length - 1) (0, 0))]) with hspeeds
    by_cases hw : est.smoothing_window ≤ speeds.length
    · simp [hw]
    · have : lastN est.smoothing_window speeds = speeds :=
        lastN_of_length_le _ _ (le_of_lt (not_le.mp hw))
      simp [hw, this]
  · have hnl : ¬ track324.positions.length < 2 := by
      simp [track324]
    simp only [estimate_speed, hnl, if_false]
    have hp : track324.positions = [(0, 0), (300, 0)] := rfl
    have hsqrt : Real.sqrt 90000 = 300 := by
      rw [show (90000 : ℝ) = 300 ^ 2 by norm_num]
      exact Real.sqrt_sq (by norm_num)
    simp only [hp, track324, est324]
    norm_num [lastN, rMean]
    rw [hsqrt]
    norm_num

/-- C9, witness: the one-position track reports 0 and the two-position
scenario reports 324. -/
theorem c9_estimate_speed_correct_witness :
    ((Track.init 0 d0).positions.length < 2) ∧
    estimate_speed est324 (Track.init 0 d0) = (Track.init 0 d0, 0) ∧
    (2 ≤ track324.positions.length) ∧
    (estimate_speed est324 track324).2 = 324 := by
  have h1 := c9_estimate_speed_correct est324 (Track.init 0 d0)
  have h2 := c9_estimate_speed_correct est324 track324
  have hl : (Track.init 0 d0).positions.length < 2 := by
    show (1 : ℕ) < 2
    decide
  exact ⟨hl, h1.1 hl, by show (2 : ℕ) ≤ 2; decide, h2.2.2⟩

/-! ## C10 — `OpticalAnalyzer.analyze_optical_flow`
(src/analytics/frameworks/vibrio.py, lines 274–306)

`cv2.cvtColor` and `cv2.calcOpticalFlowPyrLK` are external library calls,
modelled as oracles: grayscale conversion `F → Gray`, and the flow result
as `Option` of a field of flow vectors (`none` is the `flow is None`
branch).  The analyzer state is `self.prev_frame`. -/

/-- The result dictionary of `analyze_optical_flow`.  `motion_intensity`
is `none` exactly when the key is absent from the returned dictionary. -/
structure OpticalFlowOut where
  flow_magnitude : ℝ
  flow_direction : ℝ
  motion_intensity : Option ℝ

/-- `np.arctan2 y x`, as the argument of the complex number `x + iy`. -/
noncomputable def atanTwo (y x : ℝ) : ℝ := Complex.arg ⟨x, y⟩

/-- `OpticalAnalyzer.analyze_optical_flow` (lines 274–306): on the first
frame, store the grayscale frame and return only the two zero flow keys;
afterwards, compute mean flow magnitude and direction (zeros when the
library returns no flow) and additionally report
`motion_intensity = flow_magnitude / 255`. -/
noncomputable def analyze_optical_flow {F : Type} (cvtGray : F → Gray)
    (calcFlow : Gray → Gray → Option (List (ℝ × ℝ)))
    (prev_frame : Option Gray) (frame : F) : Option Gray × OpticalFlowOut :=
  match prev_frame with
  | none => (some (cvtGray frame), ⟨0, 0, none⟩)
  | some prev =>
    let gray := cvtGray frame
    let stats : ℝ × ℝ :=
      match calcFlow prev gray with
      | some flow =>
        (rMean (flow.map fun v => Real.sqrt (v.1 ^ 2 + v.2 ^ 2)),
         rMean (flow.map fun v => atanTwo v.2 v.1))
      | none => (0, 0)
    (some gray, ⟨stats.1, stats.2, some (stats.1 / 255)⟩)

/-- C10.  On the very first frame (no stored previous frame) the result
carries `flow_magnitude = 0`, `flow_direction = 0` and no
`motion_intensity` key; on every later frame all three keys are present
with `motion_intensity = flow_magnitude / 255`, and the grayscale frame is
stored for the next call. -/
theorem c10_first_frame_no_intensity {F : Type} (cvtGray : F → Gray)
    (calcFlow : Gray → Gray → Option (List (ℝ × ℝ)))
    (prev_frame : Option Gray) (frame : F) :
    (prev_frame = none →
      analyze_optical_flow cvtGray calcFlow prev_frame frame =
        (some (cvtGray frame), ⟨0, 0, none⟩)) ∧
    (∀ p, prev_frame = some p →
      (analyze_optical_flow cvtGray calcFlow prev_frame frame).2.motion_intensity =
        some ((analyze_optical_flow cvtGray calcFlow prev_frame frame).2.flow_magnitude
          / 255) ∧
      (analyze_optical_flow cvtGray calcFlow prev_frame frame).1 =
        some (cvtGray frame)) := by
  constructor
  · intro h
    subst h
    rfl
  · intro p h
    subst h
    constructor
    · simp only [analyze_optical_flow]
    · rfl

/-- C10, witness: a first frame and a second frame with no library flow. -/
theorem c10_first_frame_no_intensity_witness :
    analyze_optical_flow (F := Unit) (fun _ => []) (fun _ _ => none) none () =
      (some [], ⟨0, 0, none⟩) ∧
    (analyze_optical_flow (F := Unit) (fun _ => []) (fun _ _ => none)
        (some []) ()).2.motion_intensity =
      some ((analyze_optical_flow (F := Unit) (fun _ => []) (fun _ _ => none)
        (some []) ()).2.flow_magnitude / 255) := by
  have h1 := c10_first_frame_no_intensity (F := Unit) (fun _ => []) (fun _ _ => none) none ()
  have h2 := c10_first_frame_no_intensity (F := Unit) (fun _ => []) (fun _ _ => none)
    (some []) ()
  exact ⟨h1.1 rfl, (h2.2 [] rfl).1⟩

end Morphine
